import Mathlib

/-!
Shallow embedding of the PopcornCast cast controller (`CastVideos.js`).

The controller is single-threaded and event-driven; we model the
`CastPlayer` object's fields together with the DOM sinks it writes
(progress bar width, indicator margin, display message) and the
environment's set of scheduled interval timers as one state record.
Remote commands issued through the cast API are recorded in a command
trace.  JavaScript numbers are modelled as rationals; `parseInt` on a
number truncates toward zero, `Math.floor`/`Math.ceil` are `Rat.floor` /
`Rat.ceil`.  Assigning a `NaN`/`undefined`-derived string such as
`"NaNpx"` to a CSS property is rejected by the DOM and leaves the old
value; we model a possibly-`NaN` pixel value as `Option Int` with `none`
for `NaN`.  A JavaScript `TypeError` (property access on `null`) aborts
the handler; fallible handlers return `Except JsErr State`.
-/

namespace PopcornCast

/-- States for the Chromecast device (`DEVICE_STATE`, `CastVideos.js` line 27). -/
inductive DeviceState where
  | IDLE
  | ACTIVE
  | WARNING
  | ERROR
deriving DecidableEq, Repr

/-- States for the cast / local player (`PLAYER_STATE`, `CastVideos.js` line 37). -/
inductive PlayerState where
  | IDLE
  | LOADING
  | LOADED
  | PLAYING
  | PAUSED
  | STOPPED
  | SEEKING
  | ERROR
deriving DecidableEq, Repr

/-- The string value carried by each `PLAYER_STATE` member (they are string constants). -/
def PlayerState.str : PlayerState → String
  | .IDLE => "IDLE"
  | .LOADING => "LOADING"
  | .LOADED => "LOADED"
  | .PLAYING => "PLAYING"
  | .PAUSED => "PAUSED"
  | .STOPPED => "STOPPED"
  | .SEEKING => "SEEKING"
  | .ERROR => "ERROR"

/-- The `chrome.cast.Session` handle, as far as the controller reads it
(`session.receiver.friendlyName` in `updateDisplayMessage`). -/
structure SessionH where
  friendlyName : String
deriving DecidableEq, Repr

/-- The `chrome.cast.media.Media` handle (`currentMediaSession`); the controller
reads `currentMediaSession.media.duration`. -/
structure MediaSessionH where
  mediaDuration : ℚ
deriving DecidableEq, Repr

/-- Remote commands the controller issues through the cast API, recorded as a trace. -/
inductive RemoteCmd where
  | requestSession
  | sessionStop
  | load (contentType : String) (auto : Bool) (currentTime : ℚ)
  | play
  | pause
  | stop
  | seek (t : ℚ)
deriving DecidableEq, Repr

/-- A JavaScript runtime error (property access on `null` / `undefined`). -/
inductive JsErr where
  | typeError
deriving DecidableEq, Repr

/-- A remote media status push as the code reads it: the `onMediaStatusUpdate`
listener is invoked either with `false` (no media) or with a status object
carrying `idleReason`, `playerState` and `currentTime`. -/
structure MediaStatus where
  idleReason : String
  playerState : String
  currentTime : ℚ
deriving DecidableEq, Repr

/-- Argument of `onMediaStatusUpdate`: `false`, or a status object. -/
inductive MediaStatusArg where
  | noMedia
  | status (st : MediaStatus)
deriving DecidableEq, Repr

/-- A click / dragend event on the progress bar as `seekMedia` reads it:
`offsetX` and whether `currentTarget.id == 'progress_indicator'`. -/
structure SeekEvent where
  offsetX : ℚ
  onIndicator : Bool
deriving DecidableEq, Repr

/-- The modelled program state: the `CastPlayer` fields, the DOM sinks the
controller writes, the environment's active interval timers, and the trace of
issued remote commands. -/
structure State where
  /-- `this.deviceState` -/
  deviceState : DeviceState
  /-- `this.currentMediaSession` -/
  currentMediaSession : Option MediaSessionH
  /-- `this.session` -/
  session : Option SessionH
  /-- `this.castPlayerState` -/
  castPlayerState : PlayerState
  /-- `this.localPlayerState` -/
  localPlayerState : PlayerState
  /-- `this.currentMediaIndex` -/
  currentMediaIndex : ℕ
  /-- `this.currentMediaTime` -/
  currentMediaTime : ℚ
  /-- `this.currentMediaDuration` -/
  currentMediaDuration : ℚ
  /-- `this.timer`: the interval id held by the player (stale after a bare `clearInterval`) -/
  timer : Option ℕ
  /-- `this.progressFlag` -/
  progressFlag : Bool
  /-- `this.autoplay` -/
  autoplay : Bool
  /-- the page global `video_link` -/
  video_link : String
  /-- `this.localPlayer.currentTime` -/
  localPlayerCurrentTime : ℚ
  /-- interval ids currently scheduled in the environment (`setInterval` adds,
  `clearInterval` removes) -/
  activeTimers : List ℕ
  /-- next fresh interval id the environment hands out -/
  nextTimerId : ℕ
  /-- a `setTimeout(setProgressFlag, 1000)` is outstanding -/
  flagTimeoutPending : Bool
  /-- pixel width of the `progress` element (`none` models `NaN`/unset) -/
  pWidth : Option Int
  /-- `marginLeft` of the `progress_indicator` element (`none` models `NaN`/unset) -/
  piMarginLeft : Option Int
  /-- innerHTML of the `playerstate` element -/
  playerStateMsg : String
  /-- the `playerstate` / `playerstatebg` elements are shown -/
  playerStateShown : Bool
  /-- `casticonactive` shown (and `casticonidle` hidden) -/
  castIconActiveShown : Bool
  /-- `play` button shown (and `pause` hidden) -/
  playShown : Bool
  /-- trace of remote commands issued through the cast API -/
  cmds : List RemoteCmd
deriving DecidableEq, Repr

/-- `PROGRESS_BAR_WIDTH` (line 22). -/
def PROGRESS_BAR_WIDTH : Int := 600

/-- JavaScript `parseInt` applied to a (finite) number: truncation toward zero. -/
def jsTrunc (q : ℚ) : Int :=
  if q < 0 then -(Rat.floor (-q)) else Rat.floor q

/-- JavaScript `Array.prototype.indexOf`: index of the first occurrence, `-1` if absent. -/
def jsIndexOf (l : List String) (x : String) : Int :=
  match l.findIdx? (fun y => y = x) with
  | some i => (i : Int)
  | none => -1

/-- `leftPad(number, targetLength)` (lines 865-871): prepend `'0'` until the
decimal representation reaches the target length. -/
def leftPad (number : ℕ) (targetLength : ℕ) : String :=
  let output := Nat.repr number
  String.mk (List.replicate (targetLength - output.length) '0') ++ output

/-- JavaScript `String.prototype.split('.')`, on the character list:
`"a.b"` gives `["a","b"]`, `""` gives `[""]`, a leading or trailing dot
yields an empty component.  The result is always non-empty. -/
def splitDots : List Char → List (List Char)
  | [] => [[]]
  | c :: rest =>
      let r := splitDots rest
      if c = '.' then [] :: r else (c :: r.headI) :: r.tail

/-- `url.split('.').pop()`: the last `'.'`-separated component of the URL. -/
def lastDotComponent (url : String) : String :=
  String.mk ((splitDots url.data).getLastD [])

/-- `getContentType(url)` (lines 843-863): last `'.'`-separated component of the
URL looked up in the format table; `""` when unrecognized. -/
def getContentType (url : String) : String :=
  let ext := lastDotComponent url
  let formats : List (String × String) :=
    [("mkv", "video"), ("webm", "video"), ("mp4", "video"),
     ("jpeg", "image"), ("jpg", "image"), ("gif", "image"),
     ("png", "image"), ("bmp", "image"), ("webp", "image")]
  match formats.find? (fun f => f.1 = ext) with
  | some f => f.2 ++ "/" ++ ext
  | none => ""

/-- The `exts` validity list in `loadMedia` (line 254). -/
def loadMediaExts : List String :=
  ["mkv", "webm", "mp4", "jpeg", "jpg", "gif", "png", "bmp", "webp"]

/-- The content type `loadMedia` attaches to the load request (lines 252-260):
`getContentType` is consulted only when `exts.indexOf(ext) > 0`, else the
fallback `'video/mp4'` is used. -/
def attachedContentType (url : String) : String :=
  let ext := lastDotComponent url
  if jsIndexOf loadMediaExts ext > 0 then getContentType url else "video/mp4"

/-- `clearInterval(this.timer)`: removes the held interval id from the
environment's active set (a no-op when `this.timer` is `null` or stale). -/
def clearCurrentTimer (s : State) : List ℕ :=
  match s.timer with
  | some id => s.activeTimers.erase id
  | none => s.activeTimers

/-- `launchApp` (lines 192-198): issue `chrome.cast.requestSession` and, if a
timer is held, `clearInterval` it (without nulling the field). -/
def launchApp (s : State) : State :=
  let s1 : State := { s with cmds := s.cmds ++ [RemoteCmd.requestSession] }
  match s1.timer with
  | some id => { s1 with activeTimers := s1.activeTimers.erase id }
  | none => s1

/-- `updateDisplayMessage` (lines 728-741): show the player-state panel; with a
session, render `castPlayerState + " on " + receiver.friendlyName`; with no
session, render the idle prompt and call `launchApp`. -/
def updateDisplayMessage (s : State) : State :=
  let s1 : State := { s with playerStateShown := true }
  match s1.session with
  | some sess =>
      { s1 with playerStateMsg := s1.castPlayerState.str ++ " on " ++ sess.friendlyName }
  | none =>
      launchApp { s1 with playerStateMsg := "Start casting to begin" }

/-- `updateMediaControlUI` (lines 746-775): choose the cast icon by
`deviceState`, then the play/pause button by the active player state. -/
def updateMediaControlUI (s : State) : State :=
  if s.deviceState = DeviceState.ACTIVE then
    match s.castPlayerState with
    | .LOADED | .PLAYING => { s with castIconActiveShown := true, playShown := false }
    | .PAUSED | .IDLE | .LOADING | .STOPPED => { s with castIconActiveShown := true, playShown := true }
    | _ => { s with castIconActiveShown := true }
  else
    match s.localPlayerState with
    | .LOADED | .PLAYING => { s with castIconActiveShown := false, playShown := false }
    | .PAUSED | .IDLE | .LOADING | .STOPPED => { s with castIconActiveShown := false, playShown := true }
    | _ => { s with castIconActiveShown := false }

/-- `startProgressTimer(callback)` (lines 829-837): clear and null any held
timer, then `setInterval` a fresh one. -/
def startProgressTimer (s : State) : State :=
  let s1 : State :=
    match s.timer with
    | some id => { s with activeTimers := s.activeTimers.erase id, timer := none }
    | none => s
  { s1 with
      timer := some s1.nextTimerId,
      activeTimers := s1.activeTimers ++ [s1.nextTimerId],
      nextTimerId := s1.nextTimerId + 1 }

/-- `setProgressFlag` (lines 692-694), run by the scheduled 1-second timeout. -/
def setProgressFlag (s : State) : State :=
  { s with progressFlag := true, flagTimeoutPending := false }

/-- `updateProgressBar(e)` (lines 667-686).  On `idleReason == 'FINISHED' &&
playerState == 'IDLE'`: empty the bar, park the indicator at the left origin,
clear the timer, set `STOPPED`, refresh the display message.  Otherwise:
compute the pushed fill from `e.currentTime` and
`currentMediaSession.media.duration` (a `TypeError` when the media session is
`null`), clamp the width at 600, lower `progressFlag` and schedule
`setProgressFlag` in 1 second.  When the listener argument is the boolean
`false`, `e.idleReason`/`e.currentTime` are `undefined`: the computed widths
are `NaN`, the `'NaNpx'` style assignments are rejected by the DOM and leave
the bar unchanged, but the flag is still lowered and the timeout scheduled. -/
def updateProgressBar (s : State) (e : MediaStatusArg) : Except JsErr State :=
  match e with
  | .status st =>
      if st.idleReason = "FINISHED" ∧ st.playerState = "IDLE" then
        .ok (updateDisplayMessage
          { s with
              pWidth := some 0,
              piMarginLeft := some (-21 - PROGRESS_BAR_WIDTH),
              activeTimers := clearCurrentTimer s,
              castPlayerState := PlayerState.STOPPED })
      else
        match s.currentMediaSession with
        | none => .error JsErr.typeError
        | some ms =>
            let width0 := Rat.ceil (600 * st.currentTime / ms.mediaDuration + 1)
            let width := if width0 > 600 then 600 else width0
            let pp := Rat.ceil (600 * st.currentTime / ms.mediaDuration)
            .ok { s with
                    pWidth := some width,
                    progressFlag := false,
                    flagTimeoutPending := true,
                    piMarginLeft := some (-21 - PROGRESS_BAR_WIDTH + pp) }
  | .noMedia =>
      match s.currentMediaSession with
      | none => .error JsErr.typeError
      | some _ =>
          .ok { s with progressFlag := false, flagTimeoutPending := true }

/-- Body of `updateProgressBarByTimer` (lines 704-722), after the `isNaN`
width reset: compute `pp = floor(600 * currentTime / duration)` when the
duration is positive (`pp` stays `undefined` otherwise); if `progressFlag` is
up, clamp `pp` at 600 and write width and indicator (an `undefined` `pp`
writes `'undefinedpx'`, which the DOM rejects); finally, if the (possibly
clamped) `pp` exceeds the bar width, clear the timer, reset device and cast
state to idle and refresh the UI. -/
def updateProgressBarByTimerCore (s1 : State) : State :=
  let pp0 : Option Int :=
    if s1.currentMediaDuration > 0 then
      some (Rat.floor (600 * s1.currentMediaTime / s1.currentMediaDuration))
    else none
  let pp : Option Int :=
    if s1.progressFlag then pp0.map (fun v => if v > 600 then 600 else v) else pp0
  let s2 : State :=
    if s1.progressFlag then
      match pp with
      | some v2 => { s1 with pWidth := some v2, piMarginLeft := some (-21 - PROGRESS_BAR_WIDTH + v2) }
      | none => s1
    else s1
  match pp with
  | some v =>
      if v > PROGRESS_BAR_WIDTH then
        updateMediaControlUI (updateDisplayMessage
          { s2 with
              activeTimers := clearCurrentTimer s2,
              deviceState := DeviceState.IDLE,
              castPlayerState := PlayerState.IDLE })
      else s2
  | none => s2

/-- `updateProgressBarByTimer` (lines 699-723): the initial `isNaN` width reset
(lines 701-703), then the body above. -/
def updateProgressBarByTimer (s : State) : State :=
  updateProgressBarByTimerCore (if s.pWidth = none then { s with pWidth := some 0 } else s)

/-- `incrementMediaTime` (lines 391-402): the timer tick. -/
def incrementMediaTime (s : State) : State :=
  if s.castPlayerState = PlayerState.PLAYING ∨ s.localPlayerState = PlayerState.PLAYING then
    if s.currentMediaTime < s.currentMediaDuration then
      updateProgressBarByTimer { s with currentMediaTime := s.currentMediaTime + 1 }
    else
      { s with currentMediaTime := 0, activeTimers := clearCurrentTimer s }
  else s

/-- `onMediaStatusUpdate(e)` (lines 376-385): on `e == false` reset position
and state, then `updateProgressBar(e)`, `updateDisplayMessage`,
`updateMediaControlUI`. -/
def onMediaStatusUpdate (s : State) (e : MediaStatusArg) : Except JsErr State :=
  let s1 : State :=
    match e with
    | .noMedia => { s with currentMediaTime := 0, castPlayerState := PlayerState.IDLE }
    | .status _ => s
  match updateProgressBar s1 e with
  | .error err => .error err
  | .ok s2 => .ok (updateMediaControlUI (updateDisplayMessage s2))

/-- `stopApp` (lines 223-227): with a session, issue `session.stop`. -/
def stopApp (s : State) : State :=
  match s.session with
  | none => s
  | some _ => { s with cmds := s.cmds ++ [RemoteCmd.sessionStop] }

/-- `onStopAppSuccess` (lines 232-240): device idle, cast state idle, media
session cleared, `clearInterval(this.timer)` (the `session` field is left
untouched), then refresh display message and control UI. -/
def onStopAppSuccess (s : State) : State :=
  updateMediaControlUI (updateDisplayMessage
    { s with
        deviceState := DeviceState.IDLE,
        castPlayerState := PlayerState.IDLE,
        currentMediaSession := none,
        activeTimers := clearCurrentTimer s })

/-- `loadMedia(mediaIndex)` (lines 246-298): without a session, return
immediately; otherwise build the load request — content type from
`video_link` via the `indexOf > 0` guard, `autoplay` from the player,
`currentTime` from the local player when it is mid-playback — set `LOADING`
and issue the load.  (`mediaIndex` is accepted but, as in the source, unused:
the media URL comes from the page global `video_link`.) -/
def loadMedia (s : State) (mediaIndex : ℕ) : State :=
  match s.session with
  | none => s
  | some _ =>
      let ct := attachedContentType s.video_link
      let reqTime : ℚ :=
        if s.localPlayerState = PlayerState.PLAYING then s.localPlayerCurrentTime else 0
      { s with
          castPlayerState := PlayerState.LOADING,
          cmds := s.cmds ++ [RemoteCmd.load ct s.autoplay reqTime] }

/-- `playMedia` (lines 443-472).  From `LOADED`/`PAUSED`: issue `play` on the
media session (a `TypeError` when it is `null`), set `PLAYING`, start the
progress timer.  From `IDLE`/`LOADING`/`STOPPED`: call `loadMedia` (a silent
no-op without a session) and set `PLAYING` synchronously.  All paths end with
`updateMediaControlUI` then `updateDisplayMessage`. -/
def playMedia (s : State) : Except JsErr State :=
  match s.castPlayerState with
  | .LOADED | .PAUSED =>
      match s.currentMediaSession with
      | none => .error JsErr.typeError
      | some _ =>
          let s1 : State := { s with cmds := s.cmds ++ [RemoteCmd.play] }
          let s2 : State := { s1 with castPlayerState := PlayerState.PLAYING }
          let s3 := startProgressTimer s2
          .ok (updateDisplayMessage (updateMediaControlUI s3))
  | .IDLE | .LOADING | .STOPPED =>
      let s1 := loadMedia s s.currentMediaIndex
      let s2 : State := { s1 with castPlayerState := PlayerState.PLAYING }
      .ok (updateDisplayMessage (updateMediaControlUI s2))
  | _ => .ok (updateDisplayMessage (updateMediaControlUI s))

/-- The absolute seek target `seekMedia` computes (lines 613-626): from the
indicator, `parseInt(currentMediaTime + currentMediaDuration * pos / 600)`;
from the bar, `parseInt(pos * currentMediaDuration / 600)`. -/
def seekTarget (s : State) (ev : SeekEvent) : Int :=
  let pos : Int := jsTrunc ev.offsetX
  if ev.onIndicator then
    jsTrunc (s.currentMediaTime + s.currentMediaDuration * (pos : ℚ) / 600)
  else
    jsTrunc ((pos : ℚ) * s.currentMediaDuration / 600)

/-- `seekMedia(event)` (lines 613-643).  The target (and the unused `pp`/`pw`
pixel values) are computed first; outside `PLAYING`/`PAUSED` the handler
returns with the state untouched.  Otherwise `currentMediaTime` is set to the
target, `seek` is issued on the media session (a `TypeError` when it is
`null`), the state becomes `SEEKING`, and the message and control UI are
refreshed. -/
def seekMedia (s : State) (ev : SeekEvent) : Except JsErr State :=
  let curr := seekTarget s ev
  if s.castPlayerState ≠ PlayerState.PLAYING ∧ s.castPlayerState ≠ PlayerState.PAUSED then
    .ok s
  else
    let s1 : State := { s with currentMediaTime := (curr : ℚ) }
    match s1.currentMediaSession with
    | none => .error JsErr.typeError
    | some _ =>
        let s2 : State :=
          { s1 with
              cmds := s1.cmds ++ [RemoteCmd.seek s1.currentMediaTime],
              castPlayerState := PlayerState.SEEKING }
        .ok (updateMediaControlUI (updateDisplayMessage s2))

/-- `onSeekSuccess` (lines 649-654): a successful seek resumes `PLAYING`. -/
def onSeekSuccess (s : State) : State :=
  updateMediaControlUI (updateDisplayMessage { s with castPlayerState := PlayerState.PLAYING })

/-- The duration string computed and written by the remote-load path
(`onMediaDiscovered`, lines 328-345), for an integer duration.  Minutes are
not padded; in the sub-minute branch (line 342) the padded string is computed
but discarded, so the raw number is rendered. -/
def formatDurationRemote (d : ℕ) : String :=
  let hr := d / 3600
  let rem := d - hr * 3600
  let min := rem / 60
  let sec := rem % 60
  if 0 < hr then Nat.repr hr ++ ":" ++ Nat.repr min ++ ":" ++ leftPad sec 2
  else if 0 < min then Nat.repr min ++ ":" ++ leftPad sec 2
  else Nat.repr rem

/-- The duration string computed by the local-load path
(`onMediaLoadedLocally`, lines 410-429), for an integer duration.  Identical
to the remote path except that the sub-minute branch (line 426) does assign
the padded seconds. -/
def formatDurationLocal (d : ℕ) : String :=
  let hr := d / 3600
  let rem := d - hr * 3600
  let min := rem / 60
  let sec := rem % 60
  if 0 < hr then Nat.repr hr ++ ":" ++ Nat.repr min ++ ":" ++ leftPad sec 2
  else if 0 < min then Nat.repr min ++ ":" ++ leftPad sec 2
  else leftPad sec 2

/-- Two-digit zero-padding as the amended claim words it. -/
def specPad2 (n : ℕ) : String :=
  if n < 10 then "0" ++ Nat.repr n else Nat.repr n

/-- The duration format stated by the amended claim, written from its words:
`H:M:SS` with unpadded minutes when an hour exists, else `M:SS`, else the
two-digit zero-padded seconds. -/
def specDurationFormat (d : ℕ) : String :=
  if 3600 ≤ d then
    Nat.repr (d / 3600) ++ ":" ++ Nat.repr (d / 60 % 60) ++ ":" ++ specPad2 (d % 60)
  else if 60 ≤ d then Nat.repr (d / 60) ++ ":" ++ specPad2 (d % 60)
  else specPad2 d

/-- Single-timer bookkeeping invariant relating the held interval id to the
environment: the active set is empty (after a bare `clearInterval`) or holds
exactly the id the player remembers. -/
def timerInv (s : State) : Prop :=
  match s.timer with
  | none => s.activeTimers = []
  | some id => s.activeTimers = [] ∨ s.activeTimers = [id]

/-- `true` iff the command is a media load. -/
def RemoteCmd.isLoad : RemoteCmd → Bool
  | .load _ _ _ => true
  | _ => false

/-- A quiescent local-mode state: fresh page, no session, no media, no timer. -/
def baseState : State where
  deviceState := DeviceState.IDLE
  currentMediaSession := none
  session := none
  castPlayerState := PlayerState.IDLE
  localPlayerState := PlayerState.PAUSED
  currentMediaIndex := 0
  currentMediaTime := 0
  currentMediaDuration := -1
  timer := none
  progressFlag := true
  autoplay := true
  video_link := "http://example.com/movie.mp4"
  localPlayerCurrentTime := 0
  activeTimers := []
  nextTimerId := 0
  flagTimeoutPending := false
  pWidth := none
  piMarginLeft := none
  playerStateMsg := ""
  playerStateShown := false
  castIconActiveShown := false
  playShown := true
  cmds := []

/-- A cast-mode state: active session and media session, playing, one live
interval timer. -/
def castingState : State :=
  { baseState with
      deviceState := DeviceState.ACTIVE,
      session := some { friendlyName := "Living Room TV" },
      currentMediaSession := some { mediaDuration := 10 },
      castPlayerState := PlayerState.PLAYING,
      currentMediaDuration := 10,
      currentMediaTime := 4,
      timer := some 0,
      activeTimers := [0],
      nextTimerId := 1 }

/-- A playing state whose media duration is a fractional number of seconds. -/
def playingHalfState : State :=
  { baseState with
      castPlayerState := PlayerState.PLAYING,
      currentMediaTime := 5,
      currentMediaDuration := 11 / 2 }

/-- A playing state with integer time and duration. -/
def playingIntState : State :=
  { baseState with
      castPlayerState := PlayerState.PLAYING,
      currentMediaTime := 3,
      currentMediaDuration := 10 }

/-- A non-finished remote status push. -/
def statusPlaying : MediaStatus :=
  { idleReason := "", playerState := "PLAYING", currentTime := 4 }

/-- The end-of-media remote status push. -/
def statusFinished : MediaStatus :=
  { idleReason := "FINISHED", playerState := "IDLE", currentTime := 0 }

/-! ### Field-preservation lemmas for the UI refresh helpers -/

@[simp] theorem launchApp_session (s : State) : (launchApp s).session = s.session := by
  unfold launchApp; dsimp only; split <;> rfl

@[simp] theorem launchApp_castPlayerState (s : State) :
    (launchApp s).castPlayerState = s.castPlayerState := by
  unfold launchApp; dsimp only; split <;> rfl

@[simp] theorem launchApp_deviceState (s : State) : (launchApp s).deviceState = s.deviceState := by
  unfold launchApp; dsimp only; split <;> rfl

@[simp] theorem launchApp_currentMediaTime (s : State) :
    (launchApp s).currentMediaTime = s.currentMediaTime := by
  unfold launchApp; dsimp only; split <;> rfl

@[simp] theorem launchApp_currentMediaSession (s : State) :
    (launchApp s).currentMediaSession = s.currentMediaSession := by
  unfold launchApp; dsimp only; split <;> rfl

@[simp] theorem launchApp_pWidth (s : State) : (launchApp s).pWidth = s.pWidth := by
  unfold launchApp; dsimp only; split <;> rfl

@[simp] theorem launchApp_piMarginLeft (s : State) :
    (launchApp s).piMarginLeft = s.piMarginLeft := by
  unfold launchApp; dsimp only; split <;> rfl

@[simp] theorem launchApp_progressFlag (s : State) :
    (launchApp s).progressFlag = s.progressFlag := by
  unfold launchApp; dsimp only; split <;> rfl

@[simp] theorem launchApp_cmds (s : State) :
    (launchApp s).cmds = s.cmds ++ [RemoteCmd.requestSession] := by
  unfold launchApp; dsimp only; split <;> rfl

@[simp] theorem launchApp_playerStateMsg (s : State) :
    (launchApp s).playerStateMsg = s.playerStateMsg := by
  unfold launchApp; dsimp only; split <;> rfl

theorem launchApp_activeTimers_nil (s : State) (h : s.activeTimers = []) :
    (launchApp s).activeTimers = [] := by
  unfold launchApp; dsimp only; split <;> simp [h]

@[simp] theorem updateDisplayMessage_session (s : State) :
    (updateDisplayMessage s).session = s.session := by
  unfold updateDisplayMessage; dsimp only; split <;> simp

@[simp] theorem updateDisplayMessage_castPlayerState (s : State) :
    (updateDisplayMessage s).castPlayerState = s.castPlayerState := by
  unfold updateDisplayMessage; dsimp only; split <;> simp

@[simp] theorem updateDisplayMessage_deviceState (s : State) :
    (updateDisplayMessage s).deviceState = s.deviceState := by
  unfold updateDisplayMessage; dsimp only; split <;> simp

@[simp] theorem updateDisplayMessage_currentMediaTime (s : State) :
    (updateDisplayMessage s).currentMediaTime = s.currentMediaTime := by
  unfold updateDisplayMessage; dsimp only; split <;> simp

@[simp] theorem updateDisplayMessage_currentMediaSession (s : State) :
    (updateDisplayMessage s).currentMediaSession = s.currentMediaSession := by
  unfold updateDisplayMessage; dsimp only; split <;> simp

@[simp] theorem updateDisplayMessage_pWidth (s : State) :
    (updateDisplayMessage s).pWidth = s.pWidth := by
  unfold updateDisplayMessage; dsimp only; split <;> simp

@[simp] theorem updateDisplayMessage_piMarginLeft (s : State) :
    (updateDisplayMessage s).piMarginLeft = s.piMarginLeft := by
  unfold updateDisplayMessage; dsimp only; split <;> simp

@[simp] theorem updateDisplayMessage_progressFlag (s : State) :
    (updateDisplayMessage s).progressFlag = s.progressFlag := by
  unfold updateDisplayMessage; dsimp only; split <;> simp

theorem updateDisplayMessage_cmds_of_session (s : State) (sess : SessionH)
    (h : s.session = some sess) : (updateDisplayMessage s).cmds = s.cmds := by
  unfold updateDisplayMessage; dsimp only; rw [show ({ s with playerStateShown := true } : State).session = s.session from rfl, h]

theorem updateDisplayMessage_cmds_of_no_session (s : State) (h : s.session = none) :
    (updateDisplayMessage s).cmds = s.cmds ++ [RemoteCmd.requestSession] := by
  unfold updateDisplayMessage; dsimp only; rw [show ({ s with playerStateShown := true } : State).session = s.session from rfl, h]; simp

theorem updateDisplayMessage_activeTimers_nil (s : State) (h : s.activeTimers = []) :
    (updateDisplayMessage s).activeTimers = [] := by
  unfold updateDisplayMessage; dsimp only; split
  · simp [h]
  · exact launchApp_activeTimers_nil _ h

@[simp] theorem updateMediaControlUI_session (s : State) :
    (updateMediaControlUI s).session = s.session := by
  unfold updateMediaControlUI; split <;> split <;> rfl

@[simp] theorem updateMediaControlUI_castPlayerState (s : State) :
    (updateMediaControlUI s).castPlayerState = s.castPlayerState := by
  unfold updateMediaControlUI; split <;> split <;> rfl

@[simp] theorem updateMediaControlUI_deviceState (s : State) :
    (updateMediaControlUI s).deviceState = s.deviceState := by
  unfold updateMediaControlUI; split <;> split <;> rfl

@[simp] theorem updateMediaControlUI_currentMediaTime (s : State) :
    (updateMediaControlUI s).currentMediaTime = s.currentMediaTime := by
  unfold updateMediaControlUI; split <;> split <;> rfl

@[simp] theorem updateMediaControlUI_currentMediaSession (s : State) :
    (updateMediaControlUI s).currentMediaSession = s.currentMediaSession := by
  unfold updateMediaControlUI; split <;> split <;> rfl

@[simp] theorem updateMediaControlUI_pWidth (s : State) :
    (updateMediaControlUI s).pWidth = s.pWidth := by
  unfold updateMediaControlUI; split <;> split <;> rfl

@[simp] theorem updateMediaControlUI_piMarginLeft (s : State) :
    (updateMediaControlUI s).piMarginLeft = s.piMarginLeft := by
  unfold updateMediaControlUI; split <;> split <;> rfl

@[simp] theorem updateMediaControlUI_progressFlag (s : State) :
    (updateMediaControlUI s).progressFlag = s.progressFlag := by
  unfold updateMediaControlUI; split <;> split <;> rfl

@[simp] theorem updateMediaControlUI_cmds (s : State) :
    (updateMediaControlUI s).cmds = s.cmds := by
  unfold updateMediaControlUI; split <;> split <;> rfl

@[simp] theorem updateMediaControlUI_activeTimers (s : State) :
    (updateMediaControlUI s).activeTimers = s.activeTimers := by
  unfold updateMediaControlUI; split <;> split <;> rfl

/-! ### Progress timer and tick lemmas -/

theorem startProgressTimer_spec (s : State) (h : timerInv s) :
    ∃ id, (startProgressTimer s).timer = some id ∧ (startProgressTimer s).activeTimers = [id] := by
  unfold startProgressTimer
  unfold timerInv at h
  cases hs : s.timer with
  | none =>
      rw [hs] at h
      exact ⟨s.nextTimerId, rfl, by simp [h]⟩
  | some id =>
      rw [hs] at h
      rcases h with h | h <;> exact ⟨s.nextTimerId, rfl, by simp [h]⟩

theorem clearCurrentTimer_of_timerInv (s : State) (h : timerInv s) :
    clearCurrentTimer s = [] := by
  unfold clearCurrentTimer
  unfold timerInv at h
  cases hs : s.timer with
  | none => rw [hs] at h; exact h
  | some id => rw [hs] at h; rcases h with h | h <;> simp [h]

theorem updateProgressBarByTimerCore_currentMediaTime (t : State) :
    (updateProgressBarByTimerCore t).currentMediaTime = t.currentMediaTime := by
  unfold updateProgressBarByTimerCore
  by_cases hd : t.currentMediaDuration > 0 <;> cases hf : t.progressFlag <;>
      simp only [hd, hf, if_true, if_false, Bool.false_eq_true, Bool.true_eq_false,
        Option.map_some', Option.map_none', ite_true, ite_false]
  all_goals first | (split_ifs <;> simp) | simp | rfl

/-- The tick's UI write never touches `currentMediaTime`. -/
theorem updateProgressBarByTimer_currentMediaTime (s : State) :
    (updateProgressBarByTimer s).currentMediaTime = s.currentMediaTime := by
  unfold updateProgressBarByTimer
  rw [updateProgressBarByTimerCore_currentMediaTime]
  split <;> rfl

theorem updateProgressBarByTimerCore_suppressed (t : State) (hf : t.progressFlag = false) :
    (updateProgressBarByTimerCore t).pWidth = t.pWidth ∧
    (updateProgressBarByTimerCore t).piMarginLeft = t.piMarginLeft ∧
    (updateProgressBarByTimerCore t).progressFlag = false := by
  unfold updateProgressBarByTimerCore
  by_cases hd : t.currentMediaDuration > 0 <;>
      simp only [hd, hf, if_true, if_false, Bool.false_eq_true, Bool.true_eq_false,
        Option.map_some', Option.map_none', ite_true, ite_false]
  all_goals first | (split_ifs <;> simp [hf]) | simp [hf] | exact ⟨rfl, rfl, hf⟩

/-- While the suppression flag is down and the bar width holds a number, a
timer tick leaves the displayed fill, the indicator and the flag unchanged. -/
theorem updateProgressBarByTimer_suppressed (s : State) (hf : s.progressFlag = false)
    (hw : s.pWidth ≠ none) :
    (updateProgressBarByTimer s).pWidth = s.pWidth ∧
    (updateProgressBarByTimer s).piMarginLeft = s.piMarginLeft ∧
    (updateProgressBarByTimer s).progressFlag = false := by
  unfold updateProgressBarByTimer
  rw [if_neg hw]
  exact updateProgressBarByTimerCore_suppressed s hf

/-- While the suppression flag is down and the bar width holds a number, the
whole tick handler (`incrementMediaTime`) leaves fill, indicator and flag
unchanged. -/
theorem incrementMediaTime_suppressed (s : State) (hf : s.progressFlag = false)
    (hw : s.pWidth ≠ none) :
    (incrementMediaTime s).pWidth = s.pWidth ∧
    (incrementMediaTime s).piMarginLeft = s.piMarginLeft ∧
    (incrementMediaTime s).progressFlag = false := by
  unfold incrementMediaTime
  split
  · split
    · exact updateProgressBarByTimer_suppressed _ hf hw
    · exact ⟨rfl, rfl, hf⟩
  · exact ⟨rfl, rfl, hf⟩

/-- Any number of timer ticks starting from a suppressed state with a numeric
bar width leave fill, indicator and flag unchanged. -/
theorem ticks_preserve_suppressed (t : State) (hf : t.progressFlag = false)
    (hw : t.pWidth ≠ none) :
    ∀ n : ℕ, (incrementMediaTime^[n] t).pWidth = t.pWidth ∧
      (incrementMediaTime^[n] t).piMarginLeft = t.piMarginLeft ∧
      (incrementMediaTime^[n] t).progressFlag = false := by
  intro n
  induction n with
  | zero => exact ⟨rfl, rfl, hf⟩
  | succ k ih =>
      obtain ⟨hw', hm', hf'⟩ := ih
      rw [Function.iterate_succ_apply']
      have hwne : (incrementMediaTime^[k] t).pWidth ≠ none := by rw [hw']; exact hw
      obtain ⟨a, b, c⟩ := incrementMediaTime_suppressed _ hf' hwne
      exact ⟨by rw [a, hw'], by rw [b, hm'], c⟩

/-! ### Claim theorems -/

/-- Claim C1: a push-driven progress update (`updateProgressBar`, non-finished
status, media session present, positive duration) lowers the suppression flag
`progressFlag` and schedules `setProgressFlag` — which raises it back — one
second later; any sequence of timer ticks (`incrementMediaTime`) arriving
before that timeout runs finds the flag down and leaves the push's displayed
fill and indicator position unchanged. -/
theorem claim_C1_push_wins_over_ticks (s : State) (ms : MediaSessionH) (st : MediaStatus)
    (hms : s.currentMediaSession = some ms) (hdur : 0 < ms.mediaDuration)
    (hnf : ¬ (st.idleReason = "FINISHED" ∧ st.playerState = "IDLE")) :
    ∃ s1, updateProgressBar s (MediaStatusArg.status st) = .ok s1 ∧
      s1.progressFlag = false ∧ s1.flagTimeoutPending = true ∧
      (setProgressFlag s1).progressFlag = true ∧
      ∀ n : ℕ, (incrementMediaTime^[n] s1).pWidth = s1.pWidth ∧
        (incrementMediaTime^[n] s1).piMarginLeft = s1.piMarginLeft := by
  have hpb : updateProgressBar s (MediaStatusArg.status st) = .ok
      { s with
          pWidth := some (if Rat.ceil (600 * st.currentTime / ms.mediaDuration + 1) > 600
            then 600 else Rat.ceil (600 * st.currentTime / ms.mediaDuration + 1)),
          progressFlag := false,
          flagTimeoutPending := true,
          piMarginLeft := some (-21 - PROGRESS_BAR_WIDTH +
            Rat.ceil (600 * st.currentTime / ms.mediaDuration)) } := by
    unfold updateProgressBar
    dsimp only
    rw [if_neg hnf, hms]
  refine ⟨_, hpb, rfl, rfl, rfl, ?_⟩
  intro n
  exact ⟨(ticks_preserve_suppressed _ rfl (by simp) n).1,
    (ticks_preserve_suppressed _ rfl (by simp) n).2.1⟩

/-- Claim C1 witness: the theorem applied to the casting state and a
non-finished status push. -/
theorem claim_C1_push_wins_over_ticks_witness :
    castingState.currentMediaSession = some { mediaDuration := 10 } ∧
    (0 : ℚ) < (10 : ℚ) ∧
    ¬ (statusPlaying.idleReason = "FINISHED" ∧ statusPlaying.playerState = "IDLE") ∧
    (∃ s1, updateProgressBar castingState (MediaStatusArg.status statusPlaying) = .ok s1 ∧
      s1.progressFlag = false ∧ s1.flagTimeoutPending = true ∧
      (setProgressFlag s1).progressFlag = true ∧
      ∀ n : ℕ, (incrementMediaTime^[n] s1).pWidth = s1.pWidth ∧
        (incrementMediaTime^[n] s1).piMarginLeft = s1.piMarginLeft) :=
  ⟨rfl, by decide, by decide,
    claim_C1_push_wins_over_ticks castingState { mediaDuration := 10 } statusPlaying
      rfl (by decide) (by decide)⟩

/-- Claim C2: a remote status push with `idleReason 'FINISHED'` and
`playerState 'IDLE'` resets the bar to empty width and the indicator to the
left origin, cancels the progress timer and sets the cast player state to
`STOPPED`; a push of `false` (no media) resets `currentMediaTime` to 0 and the
cast player state to `IDLE`. -/
theorem claim_C2_finished_resets (s : State) (hinv : timerInv s) :
    (∀ st : MediaStatus, st.idleReason = "FINISHED" → st.playerState = "IDLE" →
      ∃ s2, onMediaStatusUpdate s (MediaStatusArg.status st) = .ok s2 ∧
        s2.pWidth = some 0 ∧ s2.piMarginLeft = some (-21 - PROGRESS_BAR_WIDTH) ∧
        s2.activeTimers = [] ∧ s2.castPlayerState = PlayerState.STOPPED) ∧
    (∀ ms, s.currentMediaSession = some ms →
      ∃ s2, onMediaStatusUpdate s MediaStatusArg.noMedia = .ok s2 ∧
        s2.currentMediaTime = 0 ∧ s2.castPlayerState = PlayerState.IDLE) := by
  constructor
  · intro st h1 h2
    have hpb : onMediaStatusUpdate s (MediaStatusArg.status st) = .ok
        (updateMediaControlUI (updateDisplayMessage (updateDisplayMessage
          { s with
              pWidth := some 0,
              piMarginLeft := some (-21 - PROGRESS_BAR_WIDTH),
              activeTimers := clearCurrentTimer s,
              castPlayerState := PlayerState.STOPPED }))) := by
      unfold onMediaStatusUpdate
      unfold updateProgressBar
      dsimp only
      rw [if_pos ⟨h1, h2⟩]
    refine ⟨_, hpb, by simp, by simp, ?_, by simp⟩
    rw [updateMediaControlUI_activeTimers]
    exact updateDisplayMessage_activeTimers_nil _
      (updateDisplayMessage_activeTimers_nil _ (clearCurrentTimer_of_timerInv s hinv))
  · intro ms hms
    have hpb : onMediaStatusUpdate s MediaStatusArg.noMedia = .ok
        (updateMediaControlUI (updateDisplayMessage
          { s with
              currentMediaTime := 0,
              castPlayerState := PlayerState.IDLE,
              progressFlag := false,
              flagTimeoutPending := true })) := by
      unfold onMediaStatusUpdate
      dsimp only
      unfold updateProgressBar
      dsimp only
      rw [hms]
    exact ⟨_, hpb, by simp, by simp⟩

/-- Claim C2 witness: the theorem applied to the casting state. -/
theorem claim_C2_finished_resets_witness :
    timerInv castingState ∧
    ((∀ st : MediaStatus, st.idleReason = "FINISHED" → st.playerState = "IDLE" →
      ∃ s2, onMediaStatusUpdate castingState (MediaStatusArg.status st) = .ok s2 ∧
        s2.pWidth = some 0 ∧ s2.piMarginLeft = some (-21 - PROGRESS_BAR_WIDTH) ∧
        s2.activeTimers = [] ∧ s2.castPlayerState = PlayerState.STOPPED) ∧
    (∀ ms, castingState.currentMediaSession = some ms →
      ∃ s2, onMediaStatusUpdate castingState MediaStatusArg.noMedia = .ok s2 ∧
        s2.currentMediaTime = 0 ∧ s2.castPlayerState = PlayerState.IDLE)) :=
  ⟨Or.inr rfl, claim_C2_finished_resets castingState (Or.inr rfl)⟩

/-- Claim C4: `startProgressTimer` first cancels any held timer and then
schedules a fresh one; under the single-timer bookkeeping invariant, one call
— and a second call without an intervening stop — leaves exactly one active
interval timer, and `this.timer` is non-null after every call. -/
theorem claim_C4_start_timer_single (s : State) (h : timerInv s) :
    (startProgressTimer s).activeTimers.length = 1 ∧
    (startProgressTimer s).timer ≠ none ∧
    timerInv (startProgressTimer s) ∧
    (startProgressTimer (startProgressTimer s)).activeTimers.length = 1 ∧
    (startProgressTimer (startProgressTimer s)).timer ≠ none := by
  obtain ⟨id, hid, hact⟩ := startProgressTimer_spec s h
  have hinv1 : timerInv (startProgressTimer s) := by
    unfold timerInv; rw [hid, hact]; exact Or.inr rfl
  obtain ⟨id2, hid2, hact2⟩ := startProgressTimer_spec _ hinv1
  refine ⟨by rw [hact]; rfl, by rw [hid]; simp, hinv1, by rw [hact2]; rfl, by rw [hid2]; simp⟩

/-- Claim C4 witness: the invariant holds in the quiescent base state and the
theorem applies there. -/
theorem claim_C4_start_timer_single_witness :
    timerInv baseState ∧
    ((startProgressTimer baseState).activeTimers.length = 1 ∧
     (startProgressTimer baseState).timer ≠ none ∧
     timerInv (startProgressTimer baseState) ∧
     (startProgressTimer (startProgressTimer baseState)).activeTimers.length = 1 ∧
     (startProgressTimer (startProgressTimer baseState)).timer ≠ none) :=
  ⟨rfl, claim_C4_start_timer_single baseState rfl⟩

/-- Claim C6: the content type attached to a load request follows the
extension table for every listed extension except `mkv`: because
`exts.indexOf('mkv')` is `0` and the guard is `indexOf > 0`, an `.mkv` URL is
attached `'video/mp4'` even though `getContentType` itself maps it to
`'video/mkv'`; unrecognized extensions fall back to `'video/mp4'`. -/
theorem claim_C6_content_type_eval :
    attachedContentType "http://example.com/movie.mkv" = "video/mp4" ∧
    getContentType "http://example.com/movie.mkv" = "video/mkv" ∧
    attachedContentType "http://example.com/movie.webm" = "video/webm" ∧
    attachedContentType "http://example.com/movie.mp4" = "video/mp4" ∧
    attachedContentType "http://example.com/cover.jpeg" = "image/jpeg" ∧
    attachedContentType "http://example.com/cover.jpg" = "image/jpg" ∧
    attachedContentType "http://example.com/anim.gif" = "image/gif" ∧
    attachedContentType "http://example.com/img.png" = "image/png" ∧
    attachedContentType "http://example.com/img.bmp" = "image/bmp" ∧
    attachedContentType "http://example.com/img.webp" = "image/webp" ∧
    attachedContentType "http://example.com/file.xyz" = "video/mp4" ∧
    attachedContentType "http://example/file" = "video/mp4" :=
  ⟨by decide, by decide, by decide, by decide, by decide, by decide,
   by decide, by decide, by decide, by decide, by decide, by decide⟩

theorem leftPad_eq_specPad2 : ∀ n < 60, leftPad n 2 = specPad2 n := by decide

/-- Claim C8 counterexample: at 3661 seconds both formatting paths render
`"1:1:01"`, not the `"1:01:01"` the claim's two-digit-minutes format requires;
and at 5 seconds the remote path renders the raw `"5"` rather than zero-padded
seconds. -/
theorem claim_C8_cex :
    formatDurationLocal 3661 = "1:1:01" ∧
    formatDurationRemote 3661 = "1:1:01" ∧
    ("1:1:01" : String) ≠ "1:01:01" ∧
    formatDurationRemote 5 = "5" ∧
    leftPad 5 2 = "05" :=
  ⟨by decide, by decide, by decide, by decide, by decide⟩

/-- Claim C8 (amended): for integer durations the formatter produces
`H:M:SS` — minutes unpadded, seconds zero-padded to two digits — when at
least one whole hour exists, else `M:SS`, else the local path shows the
two-digit zero-padded seconds while the remote path shows the raw number;
the components recombine to the original duration exactly. -/
theorem claim_C8_amended (d : ℕ) :
    formatDurationLocal d = specDurationFormat d ∧
    (60 ≤ d → formatDurationRemote d = formatDurationLocal d) ∧
    (d < 60 → formatDurationRemote d = Nat.repr d) ∧
    3600 * (d / 3600) + 60 * (d / 60 % 60) + d % 60 = d := by
  refine ⟨?_, ?_, ?_, by omega⟩
  · simp only [formatDurationLocal, specDurationFormat]
    have e1 : d - d / 3600 * 3600 = d % 3600 := by omega
    have e2 : d % 3600 / 60 = d / 60 % 60 := by omega
    have e3 : d % 3600 % 60 = d % 60 := by omega
    rw [e1, e2, e3, leftPad_eq_specPad2 (d % 60) (by omega)]
    by_cases h1 : 3600 ≤ d
    · have hc1 : 0 < d / 3600 := by omega
      rw [if_pos hc1, if_pos h1]
    · have hc1 : ¬ 0 < d / 3600 := by omega
      rw [if_neg hc1, if_neg h1]
      by_cases h2 : 60 ≤ d
      · have hc2 : 0 < d / 60 % 60 := by omega
        have e4 : d / 60 % 60 = d / 60 := by omega
        rw [if_pos hc2, if_pos h2, e4]
      · have hc2 : ¬ 0 < d / 60 % 60 := by omega
        have e5 : d % 60 = d := by omega
        rw [if_neg hc2, if_neg h2, e5]
  · intro h
    simp only [formatDurationRemote, formatDurationLocal]
    by_cases h1 : 0 < d / 3600
    · rw [if_pos h1, if_pos h1]
    · have h2 : 0 < (d - d / 3600 * 3600) / 60 := by omega
      rw [if_neg h1, if_neg h1, if_pos h2, if_pos h2]
  · intro h
    have h1 : ¬ 0 < d / 3600 := by omega
    have h2 : ¬ 0 < (d - d / 3600 * 3600) / 60 := by omega
    have e : d - d / 3600 * 3600 = d := by omega
    simp only [formatDurationRemote]
    rw [if_neg h1, if_neg h2, e]

/-- Claim C8 witness: the amended statement applied at 75 and 59 seconds. -/
theorem claim_C8_amended_witness :
    formatDurationLocal 75 = specDurationFormat 75 ∧
    (60 ≤ 75 → formatDurationRemote 75 = formatDurationLocal 75) ∧
    (59 < 60 → formatDurationRemote 59 = Nat.repr 59) :=
  ⟨(claim_C8_amended 75).1, (claim_C8_amended 75).2.1, fun _ => (claim_C8_amended 59).2.2.1 (by decide)⟩

/-- Claim C5: `seekMedia` is accepted only from `PLAYING`/`PAUSED` — from any
other state the handler returns with the state (and command trace) completely
unchanged; when accepted (with media session and session present) it sets
`currentMediaTime` to the computed target, issues exactly one remote `seek`,
and moves to `SEEKING`; the seek-success callback resumes `PLAYING`. -/
theorem claim_C5_seek_gating (s : State) (ev : SeekEvent) :
    ((s.castPlayerState ≠ PlayerState.PLAYING ∧ s.castPlayerState ≠ PlayerState.PAUSED) →
      seekMedia s ev = .ok s) ∧
    (∀ ms sess,
      (s.castPlayerState = PlayerState.PLAYING ∨ s.castPlayerState = PlayerState.PAUSED) →
      s.currentMediaSession = some ms → s.session = some sess →
      ∃ s2, seekMedia s ev = .ok s2 ∧
        s2.currentMediaTime = ((seekTarget s ev : Int) : ℚ) ∧
        s2.castPlayerState = PlayerState.SEEKING ∧
        s2.cmds = s.cmds ++ [RemoteCmd.seek ((seekTarget s ev : Int) : ℚ)]) ∧
    (∀ t : State, (onSeekSuccess t).castPlayerState = PlayerState.PLAYING) := by
  refine ⟨?_, ?_, ?_⟩
  · intro h
    unfold seekMedia
    dsimp only
    rw [if_pos h]
  · intro ms sess hstate hms hsess
    have hne : ¬ (s.castPlayerState ≠ PlayerState.PLAYING ∧
        s.castPlayerState ≠ PlayerState.PAUSED) := by
      rcases hstate with h | h <;> simp [h]
    have hpb : seekMedia s ev = .ok
        (updateMediaControlUI (updateDisplayMessage
          { s with
              currentMediaTime := ((seekTarget s ev : Int) : ℚ),
              cmds := s.cmds ++ [RemoteCmd.seek ((seekTarget s ev : Int) : ℚ)],
              castPlayerState := PlayerState.SEEKING })) := by
      unfold seekMedia
      dsimp only
      rw [if_neg hne, hms]
    refine ⟨_, hpb, by simp, by simp, ?_⟩
    rw [updateMediaControlUI_cmds,
      updateDisplayMessage_cmds_of_session _ sess (by simpa using hsess)]
  · intro t
    unfold onSeekSuccess
    simp

/-- Claim C5 witness: the theorem's accepted path applied to the casting
state and a click on the progress bar. -/
theorem claim_C5_seek_gating_witness :
    (castingState.castPlayerState = PlayerState.PLAYING ∨
      castingState.castPlayerState = PlayerState.PAUSED) ∧
    castingState.currentMediaSession = some { mediaDuration := 10 } ∧
    castingState.session = some { friendlyName := "Living Room TV" } ∧
    (∃ s2, seekMedia castingState { offsetX := 300, onIndicator := false } = .ok s2 ∧
      s2.currentMediaTime =
        ((seekTarget castingState { offsetX := 300, onIndicator := false } : Int) : ℚ) ∧
      s2.castPlayerState = PlayerState.SEEKING ∧
      s2.cmds = castingState.cmds ++
        [RemoteCmd.seek
          ((seekTarget castingState { offsetX := 300, onIndicator := false } : Int) : ℚ)]) :=
  ⟨Or.inl rfl, rfl, rfl,
    (claim_C5_seek_gating castingState { offsetX := 300, onIndicator := false }).2.1
      { mediaDuration := 10 } { friendlyName := "Living Room TV" } (Or.inl rfl) rfl rfl⟩

/-- Claim C7 counterexample: after a successful `stopApp`, the `session`
handle is NOT cleared — `onStopAppSuccess` never writes `this.session`, so a
state that had a session still has it. -/
theorem claim_C7_cex :
    (onStopAppSuccess castingState).session = some { friendlyName := "Living Room TV" } ∧
    (onStopAppSuccess castingState).session ≠ none := by
  have h : (onStopAppSuccess castingState).session = castingState.session := by
    unfold onStopAppSuccess; simp
  have hs : castingState.session = some { friendlyName := "Living Room TV" } := rfl
  rw [h, hs]
  exact ⟨rfl, by simp⟩

/-- Claim C7 (amended): a successful `stopApp` sets the device state and the
cast player state to idle, clears the MediaSession handle and cancels the
progress timer — but it does not clear the `session` handle, which keeps its
previous value, so the controller does not return to local mode. -/
theorem claim_C7_amended (s : State) (hinv : timerInv s) :
    (onStopAppSuccess s).deviceState = DeviceState.IDLE ∧
    (onStopAppSuccess s).castPlayerState = PlayerState.IDLE ∧
    (onStopAppSuccess s).currentMediaSession = none ∧
    (onStopAppSuccess s).activeTimers = [] ∧
    (onStopAppSuccess s).session = s.session := by
  unfold onStopAppSuccess
  refine ⟨by simp, by simp, by simp, ?_, by simp⟩
  rw [updateMediaControlUI_activeTimers]
  exact updateDisplayMessage_activeTimers_nil _ (clearCurrentTimer_of_timerInv s hinv)

/-- Claim C7 witness: the amended statement applied to the casting state. -/
theorem claim_C7_amended_witness :
    timerInv castingState ∧
    ((onStopAppSuccess castingState).deviceState = DeviceState.IDLE ∧
     (onStopAppSuccess castingState).castPlayerState = PlayerState.IDLE ∧
     (onStopAppSuccess castingState).currentMediaSession = none ∧
     (onStopAppSuccess castingState).activeTimers = [] ∧
     (onStopAppSuccess castingState).session = castingState.session) :=
  ⟨Or.inr rfl, claim_C7_amended castingState (Or.inr rfl)⟩

/-- Claim C9: invoked from `IDLE`, `LOADING` or `STOPPED`, `playMedia`
synchronously sets `castPlayerState` to `PLAYING` before any load callback —
even with no session, in which case the inner `loadMedia` does nothing (no
load command, session still absent): `castPlayerState = PLAYING` does not
imply a Session or MediaSession exists. -/
theorem claim_C9_play_sets_playing (s : State)
    (h : s.castPlayerState = PlayerState.IDLE ∨ s.castPlayerState = PlayerState.LOADING ∨
      s.castPlayerState = PlayerState.STOPPED) :
    ∃ s2, playMedia s = .ok s2 ∧ s2.castPlayerState = PlayerState.PLAYING ∧
      (s.session = none →
        s2.session = none ∧ s2.currentMediaSession = s.currentMediaSession ∧
        s2.cmds.countP (fun c => c.isLoad) = s.cmds.countP (fun c => c.isLoad)) := by
  have hpm : playMedia s = .ok (updateDisplayMessage (updateMediaControlUI
      { loadMedia s s.currentMediaIndex with castPlayerState := PlayerState.PLAYING })) := by
    rcases h with h | h | h <;> (unfold playMedia; rw [h])
  refine ⟨_, hpm, by simp, ?_⟩
  intro hnil
  have hload : loadMedia s s.currentMediaIndex = s := by
    unfold loadMedia; rw [hnil]
  rw [hload]
  have hsess : (updateMediaControlUI
      ({ s with castPlayerState := PlayerState.PLAYING } : State)).session = none := by
    rw [updateMediaControlUI_session]; exact hnil
  refine ⟨by simp [hnil], by simp, ?_⟩
  rw [updateDisplayMessage_cmds_of_no_session _ hsess, updateMediaControlUI_cmds]
  simp [RemoteCmd.isLoad]

/-- Claim C9 witness: the theorem applied to the fresh local-mode state. -/
theorem claim_C9_play_sets_playing_witness :
    (baseState.castPlayerState = PlayerState.IDLE ∨
      baseState.castPlayerState = PlayerState.LOADING ∨
      baseState.castPlayerState = PlayerState.STOPPED) ∧
    (∃ s2, playMedia baseState = .ok s2 ∧ s2.castPlayerState = PlayerState.PLAYING ∧
      (baseState.session = none →
        s2.session = none ∧ s2.currentMediaSession = baseState.currentMediaSession ∧
        s2.cmds.countP (fun c => c.isLoad) = baseState.cmds.countP (fun c => c.isLoad))) :=
  ⟨Or.inl rfl, claim_C9_play_sets_playing baseState (Or.inl rfl)⟩

/-- Claim C10: every `updateDisplayMessage` call made while `session` is null
renders the idle prompt and invokes `launchApp`, issuing a remote session
request as a side effect; consequently a transition such as `playMedia` from
`IDLE` performed in local mode also issues a session request. -/
theorem claim_C10_display_triggers_session (s : State) (hnil : s.session = none) :
    (updateDisplayMessage s).cmds = s.cmds ++ [RemoteCmd.requestSession] ∧
    (updateDisplayMessage s).playerStateMsg = "Start casting to begin" ∧
    (s.castPlayerState = PlayerState.IDLE →
      ∃ s2, playMedia s = .ok s2 ∧ RemoteCmd.requestSession ∈ s2.cmds) := by
  refine ⟨updateDisplayMessage_cmds_of_no_session s hnil, ?_, ?_⟩
  · unfold updateDisplayMessage
    dsimp only
    rw [show ({ s with playerStateShown := true } : State).session = s.session from rfl, hnil]
    rw [launchApp_playerStateMsg]
  · intro hidle
    have hpm : playMedia s = .ok (updateDisplayMessage (updateMediaControlUI
        { loadMedia s s.currentMediaIndex with castPlayerState := PlayerState.PLAYING })) := by
      unfold playMedia; rw [hidle]
    have hload : loadMedia s s.currentMediaIndex = s := by
      unfold loadMedia; rw [hnil]
    refine ⟨_, hpm, ?_⟩
    rw [hload]
    have hsess : (updateMediaControlUI
        ({ s with castPlayerState := PlayerState.PLAYING } : State)).session = none := by
      rw [updateMediaControlUI_session]; exact hnil
    rw [updateDisplayMessage_cmds_of_no_session _ hsess, updateMediaControlUI_cmds]
    simp

/-- Claim C10 witness: the theorem applied to the fresh local-mode state. -/
theorem claim_C10_display_triggers_session_witness :
    baseState.session = none ∧
    ((updateDisplayMessage baseState).cmds = baseState.cmds ++ [RemoteCmd.requestSession] ∧
     (updateDisplayMessage baseState).playerStateMsg = "Start casting to begin" ∧
     (baseState.castPlayerState = PlayerState.IDLE →
       ∃ s2, playMedia baseState = .ok s2 ∧ RemoteCmd.requestSession ∈ s2.cmds)) :=
  ⟨rfl, claim_C10_display_triggers_session baseState rfl⟩

/-- Claim C3 counterexample: with a fractional duration of 5.5 seconds the
tick advances `currentMediaTime` from 5 to 6, exceeding the duration — the
advance is not capped at `currentMediaDuration`. -/
theorem claim_C3_cex :
    (incrementMediaTime playingHalfState).currentMediaTime = 6 ∧
    ¬ (incrementMediaTime playingHalfState).currentMediaTime ≤
        playingHalfState.currentMediaDuration := by
  have hplay : playingHalfState.castPlayerState = PlayerState.PLAYING ∨
      playingHalfState.localPlayerState = PlayerState.PLAYING := Or.inl rfl
  have hlt : playingHalfState.currentMediaTime < playingHalfState.currentMediaDuration := by
    show (5 : ℚ) < 11 / 2
    norm_num
  have h6 : (incrementMediaTime playingHalfState).currentMediaTime = 6 := by
    unfold incrementMediaTime
    rw [if_pos hplay, if_pos hlt, updateProgressBarByTimer_currentMediaTime]
    show (5 : ℚ) + 1 = 6
    norm_num
  refine ⟨h6, ?_⟩
  rw [h6]
  show ¬ (6 : ℚ) ≤ 11 / 2
  norm_num

/-- Claim C3 (amended): while playing, a tick strictly below the duration
advances `currentMediaTime` by exactly one second without clamping — so the
bound `currentMediaTime ≤ duration` is kept only when at least one whole
second remains (in particular for integer times and durations); at or past
the duration the tick resets `currentMediaTime` to 0 and cancels the timer;
nonnegativity of `currentMediaTime` is preserved. -/
theorem claim_C3_amended (s : State)
    (hplay : s.castPlayerState = PlayerState.PLAYING ∨
      s.localPlayerState = PlayerState.PLAYING) :
    (s.currentMediaTime < s.currentMediaDuration →
      (incrementMediaTime s).currentMediaTime = s.currentMediaTime + 1 ∧
      (s.currentMediaTime + 1 ≤ s.currentMediaDuration →
        (incrementMediaTime s).currentMediaTime ≤ s.currentMediaDuration)) ∧
    (s.currentMediaDuration ≤ s.currentMediaTime →
      (incrementMediaTime s).currentMediaTime = 0 ∧
      (timerInv s → (incrementMediaTime s).activeTimers = [])) ∧
    (0 ≤ s.currentMediaTime → 0 ≤ (incrementMediaTime s).currentMediaTime) := by
  refine ⟨?_, ?_, ?_⟩
  · intro hlt
    have h1 : (incrementMediaTime s).currentMediaTime = s.currentMediaTime + 1 := by
      unfold incrementMediaTime
      rw [if_pos hplay, if_pos hlt, updateProgressBarByTimer_currentMediaTime]
    exact ⟨h1, fun hle => by rw [h1]; exact hle⟩
  · intro hge
    have hnlt : ¬ s.currentMediaTime < s.currentMediaDuration := not_lt.mpr hge
    unfold incrementMediaTime
    rw [if_pos hplay, if_neg hnlt]
    exact ⟨rfl, fun hinv => clearCurrentTimer_of_timerInv s hinv⟩
  · intro h0
    by_cases hlt : s.currentMediaTime < s.currentMediaDuration
    · unfold incrementMediaTime
      rw [if_pos hplay, if_pos hlt, updateProgressBarByTimer_currentMediaTime]
      show (0 : ℚ) ≤ s.currentMediaTime + 1
      linarith
    · unfold incrementMediaTime
      rw [if_pos hplay, if_neg hlt]

/-- Claim C3 witness: the amended statement applied to an integer playing
state. -/
theorem claim_C3_amended_witness :
    (playingIntState.castPlayerState = PlayerState.PLAYING ∨
      playingIntState.localPlayerState = PlayerState.PLAYING) ∧
    ((playingIntState.currentMediaTime < playingIntState.currentMediaDuration →
      (incrementMediaTime playingIntState).currentMediaTime =
        playingIntState.currentMediaTime + 1 ∧
      (playingIntState.currentMediaTime + 1 ≤ playingIntState.currentMediaDuration →
        (incrementMediaTime playingIntState).currentMediaTime ≤
          playingIntState.currentMediaDuration)) ∧
    (playingIntState.currentMediaDuration ≤ playingIntState.currentMediaTime →
      (incrementMediaTime playingIntState).currentMediaTime = 0 ∧
      (timerInv playingIntState → (incrementMediaTime playingIntState).activeTimers = [])) ∧
    (0 ≤ playingIntState.currentMediaTime →
      0 ≤ (incrementMediaTime playingIntState).currentMediaTime)) :=
  ⟨Or.inl rfl, claim_C3_amended playingIntState (Or.inl rfl)⟩

end PopcornCast
